import Mathlib

/-!
Verification of the macimg image-manipulation toolkit (Python) against its
natural-language specification.

The development is a shallow embedding of the relevant source files
(src/macimg/core.py, filters.py, distortions.py, transforms.py,
compositions.py) into Lean:

* CGFloat / Python float arithmetic is modelled over the rationals: every
  arithmetic expression appearing in the claims is division-exact, so the
  rational model tracks the Python computation exactly.  Python's division,
  which raises ZeroDivisionError on a zero denominator, is modelled by a
  checked division returning an Except value.
* Mutating methods are modelled as functions from the old object value to
  the new object value (explicit state passing).
* Pixel buffers are kept abstract: an NSImage is a size together with an
  abstract content token; the Core Image backend (an external collaborator
  in the spec) is a parameter of the filter embedding.
* The spec names four error kinds (InvalidImageError and friends).  The
  source defines none of them; the embedding gives operations an Except
  channel over those error kinds so that the claims about error behaviour
  are statable, and reflects faithfully which branches of the source can
  raise (none of the modelled ones raise a macimg error; some raise Python
  runtime errors, modelled by PyErr).
-/

namespace Macimg

/-- Python runtime errors that the modelled code paths can actually raise. -/
inductive PyErr where
  /-- AttributeError, e.g. accessing the attribute `path` on a `str`. -/
  | attributeError
  /-- ZeroDivisionError, raised by `/` on a zero denominator. -/
  | zeroDivisionError
  /-- ValueError, raised e.g. by `max(())` on an empty sequence. -/
  | valueError
  /-- TypeError, e.g. subscripting an object with no `__getitem__`. -/
  | typeError
deriving DecidableEq, Repr

/-- The error kinds named by the specification (section 7).  The source code
of the repository defines none of these classes; they are declared here so
that claims of the form "operation X fails with error Y" can be stated
about the embedding's error channel. -/
inductive MacimgError where
  | invalidImage
  | unsupportedFilter
  | noDestination
  | outOfBounds
deriving DecidableEq, Repr

/-- Python true division on rationals: raises ZeroDivisionError on a zero
denominator, exactly like the `/` in the source. -/
def pyDiv (a b : ℚ) : Except PyErr ℚ :=
  if b = 0 then .error .zeroDivisionError else .ok (a / b)

/-- Python `max` over a list (left fold of binary max); raises ValueError on
an empty sequence. -/
def pyMax (xs : List ℚ) : Except PyErr ℚ :=
  match xs with
  | [] => .error .valueError
  | x :: rest => .ok (rest.foldl max x)

/-- An NSRect / CGRect: origin (x, y) and size (w, h), as produced by
AppKit.NSMakeRect in the source. -/
structure Rect where
  x : ℚ
  y : ℚ
  w : ℚ
  h : ℚ
deriving DecidableEq, Repr

/-- A drawing command recorded against a canvas while it is focus-locked:
`image._nsimage.drawInRect_(rect)` for the image at the given argument
position.  The order of commands in a trace is the order of the draw calls. -/
structure DrawCmd where
  sourceIdx : ℕ
  rect : Rect
deriving DecidableEq, Repr

/-- Abstract pixel contents of an NSImage.  `atom` is an unanalysed buffer
(loaded file, backend filter output, ...); `stitched` is a canvas composited
from a recorded trace of draw commands. -/
inductive Content where
  | atom (id : ℕ)
  | stitched (cmds : List DrawCmd)
deriving DecidableEq, Repr

/-- An AppKit NSImage: its size (CGFloats, modelled as rationals) and its
abstract pixel contents. -/
structure NSImg where
  width : ℚ
  height : ℚ
  content : Content
deriving DecidableEq, Repr

/-- The macimg Image wrapper (core.py, class Image): the NSImage handle, the
source path `self.file`, and the `self.modified` flag. -/
structure Image where
  nsimage : NSImg
  file : Option String
  modified : Bool
deriving DecidableEq, Repr

/-- core.py line 438: `Image.size` reads `self._nsimage.size()`. -/
def Image.size (img : Image) : ℚ × ℚ :=
  (img.nsimage.width, img.nsimage.height)

/-! ## Image.overlay_image (core.py lines 721-757)

Size-argument resolution, transcribed branch by branch from lines 735-750:

    if location is None: location = (0, 0)
    if size is None: size = image.size
    elif size == (-1, -1): size = (self.size[0] - location[0], self.size[1] - location[1])
    elif size[0] == -1:    size = (self.size[0] - location[0], size[1])
    elif size[1] == -1:    size = (size[1], self.size[1] - location[1])

Note that the last branch reads `size[1]` (which is -1 in that branch) where
its own comment says "Use remaining height of background image + provided
width". -/

/-- Resolution of the `location` default (core.py lines 735-737). -/
def Image.overlayLocation (location : Option (ℚ × ℚ)) : ℚ × ℚ :=
  match location with
  | none => (0, 0)
  | some l => l

/-- Resolution of the `size` argument of overlay_image (core.py lines
739-750), given the background image self, the overlay image, and the
already-resolved location. -/
def Image.overlaySize (self : Image) (image : Image) (location : ℚ × ℚ)
    (size : Option (ℚ × ℚ)) : ℚ × ℚ :=
  match size with
  | none => image.size
  | some s =>
    if s = (-1, -1) then
      ((self.size).1 - location.1, (self.size).2 - location.2)
    else if s.1 = -1 then
      ((self.size).1 - location.1, s.2)
    else if s.2 = -1 then
      (s.2, (self.size).2 - location.2)
    else
      s

/-- The bounds rectangle passed to `image._nsimage.drawInRect_` by
overlay_image (core.py line 753): origin at the resolved location, extent
the resolved size. -/
def Image.overlayRect (self : Image) (image : Image)
    (location size : Option (ℚ × ℚ)) : Rect :=
  let loc := Image.overlayLocation location
  let sz := Image.overlaySize self image loc size
  ⟨loc.1, loc.2, sz.1, sz.2⟩

/-! ## Image.save (core.py lines 856-867)

    if file_path is None and self.file is not None:
        file_path = self.file.path
    fm = AppKit.NSFileManager.defaultManager()
    fm.createFileAtPath_contents_attributes_(file_path, self._nsimage.TIFFRepresentation(), None)

`self.file` is always a Python str or None (it is assigned the string
`image_reference` in `__init__`, or copied from another Image).  A str has
no attribute `path`, so the first branch raises AttributeError.  No
NoDestinationError exists anywhere in the source; when both the argument
and `self.file` are None, the None path is handed to NSFileManager. -/

/-- The call actually issued to NSFileManager by save: the path argument
(possibly None) and the image whose TIFF representation is written. -/
structure SaveCall where
  path : Option String
  data : NSImg
deriving DecidableEq, Repr

/-- Embedding of Image.save (core.py lines 856-867). -/
def Image.save (img : Image) (file_path : Option String) :
    Except PyErr SaveCall :=
  match file_path, img.file with
  | none, some _ =>
    -- core.py line 865: `file_path = self.file.path` -- attribute access
    -- `.path` on a Python str raises AttributeError
    .error .attributeError
  | _, _ => .ok ⟨file_path, img.nsimage⟩

/-! ## Transform: Scale (transforms.py lines 113-134) -/

/-- The Scale transform's constructed state (transforms.py lines 123-126).
Line 126 is `self.scale_factor_y = scale_factor_y or scale_factor_x`: the
Python `or` takes the right operand whenever the left is falsy, i.e. when it
is None or equal to 0. -/
structure Scale where
  scale_factor_x : ℚ
  scale_factor_y : ℚ
deriving DecidableEq, Repr

/-- Embedding of Scale.__init__ (transforms.py lines 123-126). -/
def Scale.init (scale_factor_x : ℚ) (scale_factor_y : Option ℚ) : Scale :=
  { scale_factor_x := scale_factor_x
    scale_factor_y :=
      match scale_factor_y with
      | none => scale_factor_x
      | some y => if y = 0 then scale_factor_x else y }

/-- The output canvas size computed by Scale.apply_to (transforms.py line
129): `NSMakeSize(image.size[0] * self.scale_factor_x, image.size[1] * self.scale_factor_y)`. -/
def Scale.outputSize (s : Scale) (imageW imageH : ℚ) : ℚ × ℚ :=
  (imageW * s.scale_factor_x, imageH * s.scale_factor_y)

/-- The affine scale factors installed by Scale.apply_to (transforms.py line
132): `scaleXBy_yBy_(self.scale_factor_x, self.scale_factor_y)`. -/
def Scale.transformFactors (s : Scale) : ℚ × ℚ :=
  (s.scale_factor_x, s.scale_factor_y)

/-! ## Transform: Resize (transforms.py lines 136-158)

    def apply_to(self, image):
        if self.height is None:
            self.height = image.size[1] * self.width / image.size[0]
        self._size = AppKit.NSMakeSize(image.size[0] * self.width / image.size[0],
                                       image.size[1] * self.height / image.size[1])
        self._transform = AppKit.NSAffineTransform.alloc().init()
        self._transform.scaleXBy_yBy_(self.width / image.size[0], self.height / image.size[1])
        return super().apply_to(image)

Every `/` is Python float true division, which raises ZeroDivisionError on a
zero denominator; arguments are evaluated left to right. -/

/-- The Resize transform's constructed state (transforms.py lines 146-149). -/
structure Resize where
  width : ℚ
  height : Option ℚ
deriving DecidableEq, Repr

/-- Embedding of the size computations of Resize.apply_to (transforms.py
lines 151-158) on an image of dimensions (imageW, imageH).  Returns the
post-call transform object (line 153 stores the computed height back onto
self), the computed output canvas size (line 155) and the affine scale
factors (line 158). -/
def Resize.apply_to (r : Resize) (imageW imageH : ℚ) :
    Except PyErr (Resize × (ℚ × ℚ) × (ℚ × ℚ)) := do
  let height ←
    match r.height with
    | none => pyDiv (imageH * r.width) imageW
    | some v => pure v
  let r' : Resize := { r with height := some height }
  let sizeW ← pyDiv (imageW * r.width) imageW
  let sizeH ← pyDiv (imageH * height) imageH
  let factorX ← pyDiv r.width imageW
  let factorY ← pyDiv height imageH
  pure (r', (sizeW, sizeH), (factorX, factorY))

/-! ## Transform: Rotate (transforms.py lines 86-111)

    sin_degrees = abs(math.sin(self.degrees * math.pi / 180.0))
    cos_degrees = abs(math.cos(self.degrees * math.pi / 180.0))
    self._size = Quartz.CGSizeMake(image.size[1] * sin_degrees + image.size[0] * cos_degrees,
                                   image.size[0] * sin_degrees + image.size[1] * cos_degrees)

Trigonometric functions are modelled over the reals. -/

/-- transforms.py line 99: `abs(math.sin(self.degrees * math.pi / 180.0))`. -/
noncomputable def Rotate.sin_degrees (degrees : ℝ) : ℝ :=
  |Real.sin (degrees * Real.pi / 180)|

/-- transforms.py line 100: `abs(math.cos(self.degrees * math.pi / 180.0))`. -/
noncomputable def Rotate.cos_degrees (degrees : ℝ) : ℝ :=
  |Real.cos (degrees * Real.pi / 180)|

/-- The output canvas size computed by Rotate.apply_to (transforms.py line
102) for an image of dimensions (w, h). -/
noncomputable def Rotate.outputSize (degrees w h : ℝ) : ℝ × ℝ :=
  (h * Rotate.sin_degrees degrees + w * Rotate.cos_degrees degrees,
   w * Rotate.sin_degrees degrees + h * Rotate.cos_degrees degrees)

/-! ## Filter (filters.py lines 8-43) and the center-resolving subclasses

The Core Image backend is an external collaborator (spec sections 1 and 6);
it is a parameter of the embedding.  A CIFilter's mutable state is its name
and its key/value parameter set (`setValue_forKey_` replaces the value at a
key); `Filter.__init__` creates the CIFilter and `Filter.apply_to` threads
`self._bounds` exactly as the source does:

    def apply_to(self, image):
        if self._bounds is None:
            self._bounds = AppKit.NSMakeRect(0, 0, image.size[0], image.size[1])
        ciimage = Quartz.CIImage.imageWithData_(image.data)
        self._cifilter.setValue_forKey_(ciimage, "inputImage")
        uncropped = self._cifilter.valueForKey_(Quartz.kCIOutputImageKey)
        cropped = uncropped.imageByCroppingToRect_(self._bounds)
        rep = AppKit.NSCIImageRep.imageRepWithCIImage_(cropped)
        result = AppKit.NSImage.alloc().initWithSize_(rep.size())
        result.addRepresentation_(rep)
        image._nsimage = Image(result)._nsimage
        image.modified = True
        return image

There is no validation of the input image anywhere in this method (or in
any subclass override): in particular no zero-area check and no raise
statement of any kind. -/

/-- A value stored under a CIFilter parameter key. -/
inductive Param where
  | num (q : ℚ)
  | vec (x y : ℚ)
  /-- A CIImage built from an image's data (`Quartz.CIImage.imageWithData_`). -/
  | ciimg (source : NSImg)
deriving DecidableEq, Repr

/-- Replace-or-append update of a CIFilter's key/value parameter set, the
semantics of `setValue_forKey_`. -/
def setParam (ps : List (String × Param)) (key : String) (v : Param) :
    List (String × Param) :=
  match ps with
  | [] => [(key, v)]
  | (k, w) :: rest =>
    if k = key then (k, v) :: rest else (k, w) :: setParam rest key v

/-- Look up a CIFilter parameter. -/
def getParam (ps : List (String × Param)) (key : String) : Option Param :=
  match ps with
  | [] => none
  | (k, w) :: rest => if k = key then some w else getParam rest key

/-- The state a Filter instance carries (filters.py lines 9-13): the name the
CIFilter was created with, the CIFilter's parameter set, and the memoized
`self._bounds` (None until the first apply_to). -/
structure FilterState where
  name : String
  params : List (String × Param)
  bounds : Option Rect
deriving DecidableEq, Repr

/-- Embedding of Filter.__init__ (filters.py lines 9-13). -/
def FilterState.init (filter_name : String) : FilterState :=
  ⟨filter_name, [], none⟩

/-- The external Core Image backend (spec section 6): produces the
overscanned output of a named filter from the input image's data, and
realises an NSCIImageRep of a crop of it (its reported size and contents).
The embedding is parametric in this collaborator. -/
structure Backend where
  filterOutput : String → List (String × Param) → NSImg → ℕ
  repWidth : Rect → ℕ → ℚ
  repHeight : Rect → ℕ → ℚ
  repContent : Rect → ℕ → ℕ

/-- Embedding of Filter.apply_to (filters.py lines 15-43).  The result is
the updated filter state (the memoized bounds) and the mutated image.  The
Except channel over the spec's error kinds is present so that claims about
raised macimg errors are statable; faithfully to the source, which contains
no validation and no raise statement, no branch produces an error. -/
def FilterState.apply_to (be : Backend) (f : FilterState) (image : Image) :
    Except MacimgError (FilterState × Image) :=
  let bounds : Rect :=
    match f.bounds with
    | none => ⟨0, 0, image.nsimage.width, image.nsimage.height⟩
    | some b => b
  let params := setParam f.params "inputImage" (Param.ciimg image.nsimage)
  let uncropped := be.filterOutput f.name params image.nsimage
  let newNs : NSImg :=
    ⟨be.repWidth bounds uncropped, be.repHeight bounds uncropped,
     Content.atom (be.repContent bounds uncropped)⟩
  .ok ({ f with params := params, bounds := some bounds },
       { image with nsimage := newNs, modified := true })

/-- The possible values of the `self.center` attribute of the
center-parameterised filters and distortions: the constructor argument (a
tuple or None) or a CIVector stored by a previous apply_to call. -/
inductive CenterVal where
  /-- A user-supplied tuple (x, y). -/
  | raw (x y : ℚ)
  /-- A CIVector produced by `Quartz.CIVector.vectorWithX_Y_`. -/
  | vector (x y : ℚ)
deriving DecidableEq, Repr

/-- The center resolution step shared verbatim by Bump.apply_to
(distortions.py lines 27-30), ZoomBlur.apply_to (filters.py lines 592-595)
and the other center-parameterised operations:

    if self.center is None:
        self.center = Quartz.CIVector.vectorWithX_Y_(image.size[0] / 2, image.size[1] / 2)
    else:
        self.center = Quartz.CIVector.vectorWithX_Y_(self.center[0], self.center[1])

The else branch subscripts `self.center`.  When `self.center` is the tuple
from the constructor this yields its components; when it is the CIVector
stored by a previous apply_to call, CPython raises TypeError (CIVector has
no subscript operator) -- the charitable reading modelled here re-wraps the
stored components.  Under either reading the else branch never consults the
current image's size. -/
def resolveCenter (center : Option CenterVal) (image : Image) : CenterVal :=
  match center with
  | none =>
    CenterVal.vector (image.nsimage.width / 2) (image.nsimage.height / 2)
  | some (CenterVal.raw x y) => CenterVal.vector x y
  | some (CenterVal.vector x y) => CenterVal.vector x y

/-- The Bump distortion's state (distortions.py lines 8-24): the inherited
Filter state plus center, radius and curvature. -/
structure Bump where
  filter : FilterState
  center : Option CenterVal
  radius : ℚ
  curvature : ℚ
deriving DecidableEq, Repr

/-- Embedding of Bump.__init__ (distortions.py lines 20-24). -/
def Bump.init (center : Option CenterVal) (radius curvature : ℚ) : Bump :=
  ⟨FilterState.init "CIBumpDistortion", center, radius, curvature⟩

/-- The Param carried by a resolved center CIVector. -/
def CenterVal.toParam : CenterVal → Param
  | CenterVal.raw x y => Param.vec x y
  | CenterVal.vector x y => Param.vec x y

/-- Embedding of Bump.apply_to (distortions.py lines 26-35): resolve and
store the center, set inputCenter / inputRadius / inputScale on the
CIFilter, then delegate to Filter.apply_to. -/
def Bump.apply_to (be : Backend) (b : Bump) (image : Image) :
    Except MacimgError (Bump × Image) := do
  let center := resolveCenter b.center image
  let params := setParam b.filter.params "inputCenter" center.toParam
  let params := setParam params "inputRadius" (Param.num b.radius)
  let params := setParam params "inputScale" (Param.num b.curvature)
  let (f', image') ←
    FilterState.apply_to be { b.filter with params := params } image
  pure ({ b with filter := f', center := some center }, image')

/-- The ZoomBlur filter's state (filters.py lines 576-589).  Note the
constructor creates the CIFilter with the name "CIMotionBlur" (line 587). -/
structure ZoomBlur where
  filter : FilterState
  amount : ℚ
  center : Option CenterVal
deriving DecidableEq, Repr

/-- Embedding of ZoomBlur.__init__ (filters.py lines 586-589). -/
def ZoomBlur.init (amount : ℚ) (center : Option CenterVal) : ZoomBlur :=
  ⟨FilterState.init "CIMotionBlur", amount, center⟩

/-- Embedding of ZoomBlur.apply_to (filters.py lines 591-599): resolve and
store the center, set inputAmount and inputCenter, then delegate to
Filter.apply_to. -/
def ZoomBlur.apply_to (be : Backend) (z : ZoomBlur) (image : Image) :
    Except MacimgError (ZoomBlur × Image) := do
  let center := resolveCenter z.center image
  let params := setParam z.filter.params "inputAmount" (Param.num z.amount)
  let params := setParam params "inputCenter" center.toParam
  let (f', image') ←
    FilterState.apply_to be { z.filter with params := params } image
  pure ({ z with filter := f', center := some center }, image')

/-! ## Compositions (compositions.py)

HorizontalStitch.compose (lines 48-59) computes per-image widths and heights
(or the forced dimensions), a canvas of size (sum of widths, max of
heights), and then the base class compose (lines 18-32) focus-locks a fresh
canvas, runs the _draw_images loop (lines 61-71), and wraps the canvas in a
fresh Image.  VerticalStitch (lines 73-107) is symmetric.  Python's max
raises ValueError on an empty list.

The drawing loop is modelled explicitly: its trace of drawInRect calls is
recorded, and each input image is threaded through the loop body, which --
matching the source, whose body only reads `image.size` and
`image._nsimage` -- returns it unchanged. -/

/-- Embedding of the loop body of HorizontalStitch._draw_images
(compositions.py lines 61-71), recursing over the remaining images: given
the current argument position and the running `current_x`, it produces the
draw-command trace and the post-loop input images. -/
def HorizontalStitch.drawLoop (force_dimensions : Option (ℚ × ℚ)) :
    List Image → ℕ → ℚ → List DrawCmd × List Image
  | [], _, _ => ([], [])
  | image :: rest, i, current_x =>
    let rect : Rect :=
      match force_dimensions with
      | none => ⟨current_x, 0, image.nsimage.width, image.nsimage.height⟩
      | some fd => ⟨current_x, 0, fd.1, fd.2⟩
    let step : ℚ :=
      match force_dimensions with
      | none => image.nsimage.width
      | some fd => fd.1
    let r := HorizontalStitch.drawLoop force_dimensions rest (i + 1) (current_x + step)
    (⟨i, rect⟩ :: r.1, image :: r.2)

/-- The HorizontalStitch composition's configuration (compositions.py lines
45-46). -/
structure HorizontalStitch where
  force_dimensions : Option (ℚ × ℚ)
deriving DecidableEq, Repr

/-- Embedding of HorizontalStitch.compose (compositions.py lines 48-59)
together with the base Composition.compose (lines 18-32) it delegates to:
computes widths and heights, canvas size (sum of widths, max of heights),
runs the drawing loop on a fresh focus-locked canvas, and wraps the canvas
via `Image(canvas)` (file None, modified False).  Returns the fresh image,
the trace of draw commands, and the post-call input images. -/
def HorizontalStitch.compose (c : HorizontalStitch) (images : List Image) :
    Except PyErr (Image × List DrawCmd × List Image) :=
  let widths : List ℚ :=
    match c.force_dimensions with
    | none => images.map (fun image => image.nsimage.width)
    | some fd => images.map (fun _ => fd.1)
  let heights : List ℚ :=
    match c.force_dimensions with
    | none => images.map (fun image => image.nsimage.height)
    | some fd => images.map (fun _ => fd.2)
  let total_width := widths.sum
  match pyMax heights with
  | .error e => .error e
  | .ok max_height =>
    let r := HorizontalStitch.drawLoop c.force_dimensions images 0 0
    .ok (⟨⟨total_width, max_height, Content.stitched r.1⟩, none, false⟩,
         r.1, r.2)

/-- Embedding of the loop body of VerticalStitch._draw_images
(compositions.py lines 97-107). -/
def VerticalStitch.drawLoop (force_dimensions : Option (ℚ × ℚ)) :
    List Image → ℕ → ℚ → List DrawCmd × List Image
  | [], _, _ => ([], [])
  | image :: rest, i, current_y =>
    let rect : Rect :=
      match force_dimensions with
      | none => ⟨0, current_y, image.nsimage.width, image.nsimage.height⟩
      | some fd => ⟨0, current_y, fd.1, fd.2⟩
    let step : ℚ :=
      match force_dimensions with
      | none => image.nsimage.height
      | some fd => fd.2
    let r := VerticalStitch.drawLoop force_dimensions rest (i + 1) (current_y + step)
    (⟨i, rect⟩ :: r.1, image :: r.2)

/-- The VerticalStitch composition's configuration (compositions.py lines
81-82). -/
structure VerticalStitch where
  force_dimensions : Option (ℚ × ℚ)
deriving DecidableEq, Repr

/-- Embedding of VerticalStitch.compose (compositions.py lines 84-95)
together with the base Composition.compose it delegates to: canvas size
(max of widths, sum of heights). -/
def VerticalStitch.compose (c : VerticalStitch) (images : List Image) :
    Except PyErr (Image × List DrawCmd × List Image) :=
  let widths : List ℚ :=
    match c.force_dimensions with
    | none => images.map (fun image => image.nsimage.width)
    | some fd => images.map (fun _ => fd.1)
  let heights : List ℚ :=
    match c.force_dimensions with
    | none => images.map (fun image => image.nsimage.height)
    | some fd => images.map (fun _ => fd.2)
  let total_height := heights.sum
  match pyMax widths with
  | .error e => .error e
  | .ok max_width =>
    let r := VerticalStitch.drawLoop c.force_dimensions images 0 0
    .ok (⟨⟨max_width, total_height, Content.stitched r.1⟩, none, false⟩,
         r.1, r.2)

/-! ## Concrete fixtures used by the witnesses and counterexamples -/

/-- A 200 by 200 background image. -/
def bg200 : Image := ⟨⟨200, 200, Content.atom 0⟩, none, false⟩

/-- A 30 by 40 overlay image. -/
def fg30 : Image := ⟨⟨30, 40, Content.atom 1⟩, none, false⟩

/-- An image of zero width (and height 100). -/
def zeroImg : Image := ⟨⟨0, 100, Content.atom 2⟩, none, false⟩

/-- A trivial concrete instantiation of the external Core Image backend. -/
def be0 : Backend :=
  ⟨fun _ _ _ => 0, fun _ _ => 0, fun _ _ => 0, fun _ _ => 0⟩

/-- The state of the Comic filter right after construction (filters.py lines
152-158: Comic only calls `Filter.__init__("CIComicEffect")`). -/
def comicFilter : FilterState := FilterState.init "CIComicEffect"

/-- An image that was loaded from a file path. -/
def imgWithFile : Image := ⟨⟨100, 100, Content.atom 3⟩, some "/tmp/a.png", false⟩

/-- An image with no source path (e.g. created from raw data). -/
def imgNoFile : Image := ⟨⟨100, 100, Content.atom 3⟩, none, false⟩

/-- A 100 by 100 image, the first target of a reused distortion instance. -/
def imgA : Image := ⟨⟨100, 100, Content.atom 4⟩, none, false⟩

/-- A 200 by 50 image, the second target of a reused distortion instance. -/
def imgB : Image := ⟨⟨200, 50, Content.atom 5⟩, none, false⟩

/-- Applying one Bump instance constructed with center None (distortions.py
line 20 default) to imgA and then to imgB. -/
def bumpTwice : Except MacimgError (Bump × Image) :=
  Bump.apply_to be0 (Bump.init none 300 (1/2)) imgA >>= fun r =>
    Bump.apply_to be0 r.1 imgB

/-- Applying one ZoomBlur instance constructed with center None (filters.py
line 586 default) to imgA and then to imgB. -/
def zoomTwice : Except MacimgError (ZoomBlur × Image) :=
  ZoomBlur.apply_to be0 (ZoomBlur.init 20 none) imgA >>= fun r =>
    ZoomBlur.apply_to be0 r.1 imgB

/-- A 100 by 60 image (the A of the stitching example). -/
def stitchA : Image := ⟨⟨100, 60, Content.atom 6⟩, none, false⟩

/-- A 50 by 60 image (the B of the stitching example). -/
def stitchB : Image := ⟨⟨50, 60, Content.atom 7⟩, none, false⟩

/-- The image produced by stitching the single image stitchA (either
direction): a fresh 100 by 60 canvas holding one draw command. -/
def stitchRes : Image :=
  ⟨⟨100, 60, Content.stitched [⟨0, ⟨0, 0, 100, 60⟩⟩]⟩, none, false⟩

/-- The draw-command trace of stitching the single image stitchA. -/
def stitchCmds : List DrawCmd := [⟨0, ⟨0, 0, 100, 60⟩⟩]

end Macimg

namespace Macimg

/-! ## Helper lemmas -/

/-- The left fold of binary max (Python max) yields its initial element or a
list element. -/
theorem foldl_max_eq_or_mem (xs : List ℚ) :
    ∀ x : ℚ, xs.foldl max x = x ∨ xs.foldl max x ∈ xs := by
  induction xs with
  | nil => intro x; exact Or.inl rfl
  | cons a t ih =>
    intro x
    rcases ih (max x a) with h | h
    · rw [List.foldl_cons, h]
      rcases max_choice x a with hx | ha
      · exact Or.inl hx
      · right
        rw [ha]
        exact List.mem_cons_self a t
    · exact Or.inr (List.mem_cons_of_mem a h)

/-- The initial element is below the left fold of max. -/
theorem le_foldl_max (xs : List ℚ) : ∀ x : ℚ, x ≤ xs.foldl max x := by
  induction xs with
  | nil => intro x; exact le_refl x
  | cons a t ih =>
    intro x
    exact le_trans (le_max_left x a) (ih (max x a))

/-- Every list element is below the left fold of max. -/
theorem mem_le_foldl_max (xs : List ℚ) :
    ∀ x y : ℚ, y ∈ xs → y ≤ xs.foldl max x := by
  induction xs with
  | nil => intro x y hy; cases hy
  | cons a t ih =>
    intro x y hy
    rcases List.mem_cons.mp hy with rfl | hy
    · exact le_trans (le_max_right x y) (le_foldl_max t (max x y))
    · exact ih (max x a) y hy

/-- The horizontal drawing loop returns the input images unchanged: its body
only reads them (compositions.py lines 61-71). -/
theorem hDrawLoop_snd (fd : Option (ℚ × ℚ)) (l : List Image) :
    ∀ (i : ℕ) (x : ℚ), (HorizontalStitch.drawLoop fd l i x).2 = l := by
  induction l with
  | nil => intro i x; rfl
  | cons a t ih =>
    intro i x
    simp only [HorizontalStitch.drawLoop, ih]

/-- The vertical drawing loop returns the input images unchanged
(compositions.py lines 97-107). -/
theorem vDrawLoop_snd (fd : Option (ℚ × ℚ)) (l : List Image) :
    ∀ (i : ℕ) (x : ℚ), (VerticalStitch.drawLoop fd l i x).2 = l := by
  induction l with
  | nil => intro i x; rfl
  | cons a t ih =>
    intro i x
    simp only [VerticalStitch.drawLoop, ih]

/-- The horizontal drawing loop emits one draw command per image. -/
theorem hDrawLoop_length (fd : Option (ℚ × ℚ)) (l : List Image) :
    ∀ (i : ℕ) (x : ℚ), (HorizontalStitch.drawLoop fd l i x).1.length = l.length := by
  induction l with
  | nil => intro i x; rfl
  | cons a t ih =>
    intro i x
    simp only [HorizontalStitch.drawLoop, List.length_cons, ih]

/-- The k-th command of the unforced horizontal drawing loop draws the k-th
image at x equal to the running offset plus the widths of the images before
it, at y equal 0, at the image's native size. -/
theorem hDrawLoop_get (l : List Image) :
    ∀ (i0 : ℕ) (x : ℚ) (k : ℕ) (im : Image), l.get? k = some im →
      (HorizontalStitch.drawLoop none l i0 x).1.get? k =
        some ⟨i0 + k,
          ⟨x + ((l.take k).map (fun j => j.nsimage.width)).sum, 0,
           im.nsimage.width, im.nsimage.height⟩⟩ := by
  induction l with
  | nil => intro i0 x k im h; cases h
  | cons a t ih =>
    intro i0 x k im h
    cases k with
    | zero =>
      cases h
      simp [HorizontalStitch.drawLoop]
    | succ k =>
      have ht : t.get? k = some im := h
      simp only [HorizontalStitch.drawLoop, List.get?_cons_succ]
      rw [ih (i0 + 1) (x + a.nsimage.width) k im ht]
      congr 2
      · omega
      · simp [List.take_succ_cons, add_assoc]

/-! ## Claim theorems -/

/-- C1: overlay_image size resolution.  The claim (and the source's own
comment on core.py line 749) says that size = (w, -1) with w distinct from
-1 resolves to (w, background height minus location y); the code (line 750)
instead builds the pair from size[1], so on a 200 by 200 background at
location (10, 10) the argument (50, -1) resolves to (-1, 190) rather than
(50, 190), and the overlay is drawn into the rect with origin (10, 10) and
that degenerate size. -/
theorem C1_overlay_size_width_bug :
    Image.overlaySize bg200 fg30 (10, 10) (some (50, -1)) = (-1, 190) ∧
    Image.overlaySize bg200 fg30 (10, 10) (some (50, -1)) ≠ (50, 190) ∧
    Image.overlayRect bg200 fg30 (some (10, 10)) (some (50, -1)) =
      ⟨10, 10, -1, 190⟩ := by
  refine ⟨?_, ?_, ?_⟩ <;>
    norm_num [Image.overlaySize, Image.overlayRect, Image.overlayLocation,
      Image.size, bg200, fg30, Prod.ext_iff]

/-- C2 counterexample: Filter.apply_to on a zero-width image does not fail
with InvalidimageError (no such error exists in the source and apply_to has
no zero-area check): with a concrete backend it returns ok, committing the
backend result and setting modified. -/
theorem C2_counterexample :
    FilterState.apply_to be0 comicFilter zeroImg =
      .ok (⟨"CIComicEffect",
            [("inputImage", Param.ciimg ⟨0, 100, Content.atom 2⟩)],
            some ⟨0, 0, 0, 100⟩⟩,
           ⟨⟨0, 0, Content.atom 0⟩, none, true⟩) := rfl

/-- C2 (amended): Filter.apply_to performs no zero-area validation: for
every backend and every filter state, applied to an image whose width or
height is zero it does not raise InvalidImageError (or any macimg error);
it runs the ordinary filter pipeline and returns the image with modified
set to true. -/
theorem C2_zero_area_no_error (be : Backend) (f : FilterState) (image : Image)
    (_h : image.nsimage.width = 0 ∨ image.nsimage.height = 0) :
    ∃ f' image', FilterState.apply_to be f image = .ok (f', image') ∧
      image'.modified = true :=
  ⟨_, _, rfl, rfl⟩

/-- C2 witness: the amended statement at the concrete zero-width image. -/
theorem C2_zero_area_no_error_witness :
    (zeroImg.nsimage.width = 0 ∨ zeroImg.nsimage.height = 0) ∧
    ∃ f' image', FilterState.apply_to be0 comicFilter zeroImg = .ok (f', image') ∧
      image'.modified = true :=
  ⟨Or.inl rfl, C2_zero_area_no_error be0 comicFilter zeroImg (Or.inl rfl)⟩

/-- C3: Image.save.  With a source path and no explicit path, line 865
evaluates `self.file.path` on a Python str and raises AttributeError instead
of writing to the source path ("Saves to the original file (if there was
one) by default", says its own docstring); with neither a path nor a source,
no NoDestinationError is raised (none exists in the source): the None path
is silently handed to NSFileManager. -/
theorem C3_save_bug :
    Image.save imgWithFile none = .error PyErr.attributeError ∧
    Image.save imgNoFile none = .ok ⟨none, imgNoFile.nsimage⟩ :=
  ⟨rfl, rfl⟩

/-- C4: per-call center resolution.  Applying a single Bump (resp. ZoomBlur)
instance constructed with center None first to the 100 by 100 imgA and then
to the 200 by 50 imgB: the first call stores the resolved CIVector (50, 50)
on the instance, and the second call, finding center not None, never
consults imgB's size (in CPython it even attempts to subscript the stored
CIVector), so the second application uses the stale center (50, 50) -- not
(100, 25) as per-call resolution from imgB would give -- and also reuses the
stale crop bounds (0, 0, 100, 100) memoized by the first call instead of
(0, 0, 200, 50). -/
theorem C4_stale_center_bug :
    bumpTwice.map (fun r => (r.1.center, r.1.filter.bounds)) =
      .ok (some (CenterVal.vector 50 50), some ⟨0, 0, 100, 100⟩) ∧
    zoomTwice.map (fun r => (r.1.center, r.1.filter.bounds)) =
      .ok (some (CenterVal.vector 50 50), some ⟨0, 0, 100, 100⟩) ∧
    CenterVal.vector 50 50 ≠ CenterVal.vector 100 25 ∧
    Rect.mk 0 0 100 100 ≠ Rect.mk 0 0 200 50 := by
  refine ⟨?_, ?_, ?_, ?_⟩ <;>
    norm_num [bumpTwice, zoomTwice, Bump.apply_to, ZoomBlur.apply_to,
      Bump.init, ZoomBlur.init, FilterState.init, FilterState.apply_to,
      resolveCenter, setParam, CenterVal.toParam, imgA, imgB, be0,
      Except.map, bind, Except.bind, pure, Except.pure,
      CenterVal.vector.injEq, Rect.mk.injEq]

/-- C9: composing zero images raises an error (Python max of an empty
sequence raises ValueError) rather than returning an empty or zero-size
Image, for both stitch directions and any force_dimensions setting. -/
theorem C9_empty_compose_error (fdh fdv : Option (ℚ × ℚ)) :
    HorizontalStitch.compose ⟨fdh⟩ [] = .error PyErr.valueError ∧
    VerticalStitch.compose ⟨fdv⟩ [] = .error PyErr.valueError := by
  cases fdh <;> cases fdv <;> exact ⟨rfl, rfl⟩

/-- C10: Scale's constructor replaces a falsy scale_factor_y (None or 0)
with scale_factor_x, so Scale(fx, 0.0) is indistinguishable from
Scale(fx, fx) -- same constructed state, same output canvas size, same
affine factors -- and the resolved vertical factor can only be zero when
scale_factor_x itself is zero. -/
theorem C10_scale_falsy_y (sx : ℚ) (sy : Option ℚ) (w h : ℚ) :
    Scale.init sx (some 0) = Scale.init sx (some sx) ∧
    Scale.init sx none = Scale.init sx (some sx) ∧
    Scale.outputSize (Scale.init sx (some 0)) w h =
      Scale.outputSize (Scale.init sx (some sx)) w h ∧
    Scale.transformFactors (Scale.init sx (some 0)) =
      Scale.transformFactors (Scale.init sx (some sx)) ∧
    ((Scale.init sx sy).scale_factor_y = 0 ↔
      sx = 0 ∧ (sy = none ∨ sy = some 0)) := by
  have hinit : Scale.init sx (some 0) = Scale.init sx (some sx) := by
    simp [Scale.init]
  refine ⟨hinit, by simp [Scale.init], by rw [hinit], by rw [hinit], ?_⟩
  rcases sy with _ | y
  · simp [Scale.init]
  · by_cases hy : y = 0
    · subst hy
      simp [Scale.init]
    · simp [Scale.init, hy]

/-- C6: Rotate's output canvas (transforms.py line 102) is exactly the
enlarged bounding box w times abs cos plus h times abs sin by h times abs
cos plus w times abs sin of the rotation angle in degrees, and a rotation by
0 degrees keeps the canvas size unchanged. -/
theorem C6_rotate_bounding_box (degrees w h : ℝ) :
    Rotate.outputSize degrees w h =
      (w * |Real.cos (degrees * Real.pi / 180)| +
         h * |Real.sin (degrees * Real.pi / 180)|,
       h * |Real.cos (degrees * Real.pi / 180)| +
         w * |Real.sin (degrees * Real.pi / 180)|) ∧
    Rotate.outputSize 0 w h = (w, h) := by
  constructor
  · simp only [Rotate.outputSize, Rotate.sin_degrees, Rotate.cos_degrees,
      Prod.mk.injEq]
    constructor <;> ring
  · simp [Rotate.outputSize, Rotate.sin_degrees, Rotate.cos_degrees]

/-- C5: HorizontalStitch with no forced dimensions, on a non-empty image
list, produces a fresh canvas whose width is the sum of the input widths and
whose height is the maximum of the input heights (a member of the height
list that bounds all of them), returns the inputs unchanged, and draws one
command per image, the k-th drawing the k-th input at x equal to the sum of
the widths of the images before it, y equal 0, at its native size. -/
theorem C5_horizontal_stitch_layout (images : List Image) (h : images ≠ []) :
    ∃ res cmds,
      HorizontalStitch.compose ⟨none⟩ images = .ok (res, cmds, images) ∧
      res.nsimage.width = (images.map (fun i => i.nsimage.width)).sum ∧
      res.nsimage.height ∈ images.map (fun i => i.nsimage.height) ∧
      (∀ y ∈ images.map (fun i => i.nsimage.height), y ≤ res.nsimage.height) ∧
      cmds.length = images.length ∧
      ∀ k im, images.get? k = some im →
        cmds.get? k = some ⟨k,
          ⟨((images.take k).map (fun j => j.nsimage.width)).sum, 0,
           im.nsimage.width, im.nsimage.height⟩⟩ := by
  obtain ⟨a, t, rfl⟩ := List.exists_cons_of_ne_nil h
  refine ⟨⟨⟨((a :: t).map (fun i => i.nsimage.width)).sum,
            (t.map (fun i => i.nsimage.height)).foldl max a.nsimage.height,
            Content.stitched (HorizontalStitch.drawLoop none (a :: t) 0 0).1⟩,
           none, false⟩,
         (HorizontalStitch.drawLoop none (a :: t) 0 0).1, ?_, rfl, ?_, ?_, ?_, ?_⟩
  · simp only [HorizontalStitch.compose, List.map_cons, pyMax,
      hDrawLoop_snd]
  · rcases foldl_max_eq_or_mem (t.map (fun i => i.nsimage.height))
      a.nsimage.height with he | hm
    · rw [List.map_cons, he]
      exact List.mem_cons_self _ _
    · rw [List.map_cons]
      exact List.mem_cons_of_mem _ hm
  · intro y hy
    rw [List.map_cons] at hy
    rcases List.mem_cons.mp hy with rfl | hy
    · exact le_foldl_max _ _
    · exact mem_le_foldl_max _ _ _ hy
  · rw [hDrawLoop_length, List.length_cons]
  · intro k im hk
    have := hDrawLoop_get (a :: t) 0 0 k im hk
    simpa using this

/-- C5 witness: the layout statement at the concrete pair of the testable
property -- stitchA of size (100, 60) and stitchB of size (50, 60) -- whose
canvas is (150, 60), with stitchA drawn at x from 0 and stitchB at x from
100. -/
theorem C5_horizontal_stitch_layout_witness :
    (([stitchA, stitchB] : List Image) ≠ []) ∧
    (∃ res cmds,
      HorizontalStitch.compose ⟨none⟩ [stitchA, stitchB] =
        .ok (res, cmds, [stitchA, stitchB]) ∧
      res.nsimage.width = ([stitchA, stitchB].map (fun i => i.nsimage.width)).sum ∧
      res.nsimage.height ∈ [stitchA, stitchB].map (fun i => i.nsimage.height) ∧
      (∀ y ∈ [stitchA, stitchB].map (fun i => i.nsimage.height),
        y ≤ res.nsimage.height) ∧
      cmds.length = ([stitchA, stitchB] : List Image).length ∧
      ∀ k im, ([stitchA, stitchB] : List Image).get? k = some im →
        cmds.get? k = some ⟨k,
          ⟨(([stitchA, stitchB].take k).map (fun j => j.nsimage.width)).sum, 0,
           im.nsimage.width, im.nsimage.height⟩⟩) ∧
    HorizontalStitch.compose ⟨none⟩ [stitchA, stitchB] =
      .ok (⟨⟨150, 60, Content.stitched
              [⟨0, ⟨0, 0, 100, 60⟩⟩, ⟨1, ⟨100, 0, 50, 60⟩⟩]⟩, none, false⟩,
           [⟨0, ⟨0, 0, 100, 60⟩⟩, ⟨1, ⟨100, 0, 50, 60⟩⟩],
           [stitchA, stitchB]) :=
  ⟨List.cons_ne_nil _ _,
   C5_horizontal_stitch_layout [stitchA, stitchB] (List.cons_ne_nil _ _),
   by norm_num [HorizontalStitch.compose, HorizontalStitch.drawLoop, pyMax,
        stitchA, stitchB]⟩

/-- C7 counterexample: the claim quantifies over every image with positive
width; on the image of size (1, 0) -- positive width, zero height -- the
source raises ZeroDivisionError at transforms.py line 155 (the second
NSMakeSize argument divides by image.size[1]) instead of yielding an output
of size (w, H times w over W). -/
theorem C7_zero_height_counterexample :
    (0 : ℚ) < 1 ∧
    Resize.apply_to ⟨200, none⟩ 1 0 = .error PyErr.zeroDivisionError := by
  refine ⟨by norm_num, ?_⟩
  norm_num [Resize.apply_to, pyDiv, bind, Except.bind, pure, Except.pure]

/-- C7 (amended): for every image of positive width and positive height and
every target width w, Resize(w, None).apply_to computes the missing height
as H times w over W from the pre-resize dimensions and yields an output of
size (w, H times w over W), storing the computed height on the transform. -/
theorem C7_resize_aspect (W H w : ℚ) (hW : 0 < W) (hH : 0 < H) :
    ∃ factors, Resize.apply_to ⟨w, none⟩ W H =
      .ok (⟨w, some (H * w / W)⟩, (w, H * w / W), factors) := by
  have hW0 : W ≠ 0 := ne_of_gt hW
  have hH0 : H ≠ 0 := ne_of_gt hH
  refine ⟨(w / W, H * w / W / H), ?_⟩
  simp only [Resize.apply_to, pyDiv, hW0, hH0, if_false, bind, Except.bind,
    pure, Except.pure, if_neg]
  have h1 : W * w / W = w := by
    field_simp
  have h2 : H * (H * w / W) / H = H * w / W := mul_div_cancel_left₀ _ hH0
  rw [h1, h2]

/-- C7 witness: the amended statement at the spec's example -- a (100, 50)
image resized with Resize(200, None) yields output size (200, 100). -/
theorem C7_resize_aspect_witness :
    (0 : ℚ) < 100 ∧ (0 : ℚ) < 50 ∧
    (∃ factors, Resize.apply_to ⟨200, none⟩ 100 50 =
      .ok (⟨200, some (50 * 200 / 100)⟩, (200, 50 * 200 / 100), factors)) ∧
    (50 * 200 / 100 : ℚ) = 100 :=
  ⟨by norm_num, by norm_num,
   C7_resize_aspect 100 50 200 (by norm_num) (by norm_num), by norm_num⟩

/-- C8: whenever a horizontal or vertical stitch returns a composed image,
the input images come back exactly as they went in (the drawing loop only
reads them) and the composed result is a fresh Image wrapped via
Image(canvas): no source path, modified flag False. -/
theorem C8_compose_preserves_inputs (fdh fdv : Option (ℚ × ℚ))
    (images : List Image) (res : Image) (cmds : List DrawCmd)
    (post : List Image) :
    (HorizontalStitch.compose ⟨fdh⟩ images = .ok (res, cmds, post) →
      post = images ∧ res.file = none ∧ res.modified = false) ∧
    (VerticalStitch.compose ⟨fdv⟩ images = .ok (res, cmds, post) →
      post = images ∧ res.file = none ∧ res.modified = false) := by
  constructor
  · intro hc
    simp only [HorizontalStitch.compose] at hc
    split at hc
    · cases hc
    · rw [Except.ok.injEq, Prod.mk.injEq, Prod.mk.injEq] at hc
      obtain ⟨hres, -, hpost⟩ := hc
      rw [← hres, ← hpost, hDrawLoop_snd]
      exact ⟨rfl, rfl, rfl⟩
  · intro hc
    simp only [VerticalStitch.compose] at hc
    split at hc
    · cases hc
    · rw [Except.ok.injEq, Prod.mk.injEq, Prod.mk.injEq] at hc
      obtain ⟨hres, -, hpost⟩ := hc
      rw [← hres, ← hpost, vDrawLoop_snd]
      exact ⟨rfl, rfl, rfl⟩

/-- C8 witness: both frame conditions discharged at the concrete one-image
stitch of stitchA. -/
theorem C8_compose_preserves_inputs_witness :
    ([stitchA] = [stitchA] ∧ stitchRes.file = none ∧
      stitchRes.modified = false) ∧
    ([stitchA] = [stitchA] ∧ stitchRes.file = none ∧
      stitchRes.modified = false) :=
  ⟨(C8_compose_preserves_inputs none none [stitchA] stitchRes stitchCmds
      [stitchA]).1
    (by norm_num [HorizontalStitch.compose, HorizontalStitch.drawLoop, pyMax,
          stitchA, stitchRes, stitchCmds]),
   (C8_compose_preserves_inputs none none [stitchA] stitchRes stitchCmds
      [stitchA]).2
    (by norm_num [VerticalStitch.compose, VerticalStitch.drawLoop, pyMax,
          stitchA, stitchRes, stitchCmds])⟩

end Macimg
